import Mathlib

/-!
# Shallow embedding of the Quick SOS app core (src/src/App.jsx)

The definitions below translate the program logic of `App.jsx`:
phone normalization and the blocked-number check, the contact store
(`addContact`, `removeContact`, `recipientsCsv`), the single-shot
location probe (`getLocationOnce`), and the SOS send path (the message
composition, maps-link construction and SMS URI of `sendSOS`).

JavaScript strings are Lean `String`s; the contact array is a
`List Contact`; the nondeterministic `crypto.randomUUID()` is an
explicit `fresh` argument; geographic coordinates are `Rat` and
`Number.prototype.toFixed(6)` is modelled exactly (round to nearest,
ties away from zero on the magnitude).  Persistence writes (the
`useEffect` on `contacts`) and capability invocations are made explicit
as traces so that "no write happens" / "no capability is called" are
statable.
-/

namespace SOS

/-- JavaScript `String.prototype.trim`: strip leading and trailing
whitespace.  (Lean's own `String.trim` is defined through `Substring`
accessors that do not reduce in the kernel, so the same function is
written here over the character list.) -/
def jsTrim (s : String) : String :=
  String.mk (((s.data.dropWhile Char.isWhitespace).reverse.dropWhile Char.isWhitespace).reverse)

/-- `normalizePhone` from App.jsx: `(input || "").replace(/\D/g, "")` —
keep only the decimal digits of the input. -/
def normalizePhone (input : String) : String :=
  String.mk (input.data.filter Char.isDigit)

/-- The reserved emergency numbers of `isBlockedNumber`. -/
def blockedNumbers : List String := ["911", "112", "999", "988"]

/-- `isBlockedNumber` from App.jsx: the normalized digits are in the
reserved list. -/
def isBlockedNumber (input : String) : Bool :=
  blockedNumbers.contains (normalizePhone input)

/-- A stored contact: `{ id, name, phone }` as built by `addContact`. -/
structure Contact where
  id : String
  name : String
  phone : String
deriving DecidableEq, Repr

/-- The dedup loop of `addContact`: walk the list in order, keep an
element only when its raw `phone` string has not been seen yet.
`seen` plays the role of the JS `Set`. -/
def dedupByPhone (seen : List String) : List Contact → List Contact
  | [] => []
  | c :: rest =>
      if seen.contains c.phone then dedupByPhone seen rest
      else c :: dedupByPhone (c.phone :: seen) rest

/-- The three validation failures of `addContact`, in check order. -/
inductive ValidationError where
  | EmptyPhone
  | BlockedNumber
  | TooShort
deriving DecidableEq, Repr

/-- The status string `addContact` reports for each validation failure. -/
def validationStatus : ValidationError → String
  | .EmptyPhone => "Enter a phone number."
  | .BlockedNumber => "Emergency numbers like 911 cannot be added."
  | .TooShort => "That number looks too short."

/-- `addContact` from App.jsx as a pure function of the contact list.
`fresh` stands for the `crypto.randomUUID()` result; `name` and
`phoneInput` are the two input fields.  On success it returns the
deduplicated appended list that `setContacts` receives; on a validation
failure it returns the error (the code sets a status string and
returns without touching `contacts`). -/
def addContact (fresh name phoneInput : String) (contacts : List Contact) :
    Except ValidationError (List Contact) :=
  let phone := jsTrim phoneInput
  let digits := normalizePhone phone
  if phone = "" then .error .EmptyPhone
  else if isBlockedNumber phone then .error .BlockedNumber
  else if digits.length < 7 then .error .TooShort
  else .ok (dedupByPhone [] (contacts ++ [{ id := fresh, name := jsTrim name, phone := phone }]))

/-- `removeContact` from App.jsx: `contacts.filter((c) => c.id !== id)`. -/
def removeContact (id : String) (contacts : List Contact) : List Contact :=
  contacts.filter (fun c => c.id != id)

/-- `recipientsCsv` from App.jsx: `contacts.map((c) => c.phone).join(",")`. -/
def recipientsCsv (contacts : List Contact) : String :=
  String.intercalate "," (contacts.map (·.phone))

/-- The contact lists reachable from the empty store by the two
mutations the app offers: successful `addContact` calls and
`removeContact` calls. -/
inductive Reachable : List Contact → Prop where
  | empty : Reachable []
  | add (fresh name phoneInput : String) (s s' : List Contact) :
      Reachable s → addContact fresh name phoneInput s = .ok s' → Reachable s'
  | remove (id : String) (s : List Contact) :
      Reachable s → Reachable (removeContact id s)

example : normalizePhone "(555) 123-4567" = "5551234567" := by decide
example : isBlockedNumber "9-1-1" = true := by decide
example : addContact "u1" "A" " 555-1234567 " [] =
    .ok [{ id := "u1", name := "A", phone := "555-1234567" }] := by rfl

/-- Left-pad a natural number's decimal representation to 6 digits. -/
def pad6 (k : Nat) : String :=
  let s := toString k
  String.mk (List.replicate (6 - s.length) '0') ++ s

/-- JavaScript `Number.prototype.toFixed(6)` on an exact coordinate value:
a leading sign for negative input, then the magnitude rounded to the
nearest multiple of `10 ^ (-6)` (ties away from zero), written with
exactly six fractional digits. -/
def toFixed6 (q : Rat) : String :=
  let n : Nat := (q.num.natAbs * 1000000 * 2 + q.den) / (2 * q.den)
  (if q.num < 0 then "-" else "") ++ toString (n / 1000000) ++ "." ++ pad6 (n % 1000000)

/-- `mapsLink` from App.jsx: `` `https://maps.google.com/?q=${lat},${lon}` ``. -/
def mapsLink (lat lon : String) : String :=
  "https://maps.google.com/?q=" ++ lat ++ "," ++ lon

/-- A location result as `sendSOS` sees it after awaiting the probe:
either a position (the `try` branch) or any failure (the `catch`). -/
inductive LocationFix where
  | Known (lat lon : Rat)
  | Unknown
deriving DecidableEq, Repr

/-- The `link` value `sendSOS` computes: on a position, the maps link of
the `toFixed(6)`-formatted coordinates; on any probe failure, `""`. -/
def composedMapLink : LocationFix → String
  | .Known lat lon => mapsLink (toFixed6 lat) (toFixed6 lon)
  | .Unknown => ""

/-- The message text `sendSOS` builds (lines 156–167 of App.jsx),
with the name line, the two fixed lines, the location block keyed on a
non-empty `link`, and the time line. -/
def composeMessage (userName link time : String) : String :=
  let nameLine :=
    if userName ≠ "" then "My name is " ++ userName ++ "." else "This is an SOS message."
  nameLine ++ "\n" ++
  "I’m being questioned or detained and may not be able to respond right now.\n" ++
  "Please check on me to make sure I’m okay.\n" ++
  (if link ≠ "" then "My last known location is below:\n" ++ link ++ "\n"
   else "My location is unavailable right now.\n") ++
  "Time: " ++ time

/-- The UTF-8 bytes of a code point, as natural numbers below 256. -/
def utf8Bytes (n : Nat) : List Nat :=
  if n < 0x80 then [n]
  else if n < 0x800 then [0xC0 + n / 64, 0x80 + n % 64]
  else if n < 0x10000 then [0xE0 + n / 4096, 0x80 + n / 64 % 64, 0x80 + n % 64]
  else [0xF0 + n / 262144, 0x80 + n / 4096 % 64, 0x80 + n / 64 % 64, 0x80 + n % 64]

/-- One uppercase hexadecimal digit. -/
def hexDigit (n : Nat) : Char :=
  if n < 10 then Char.ofNat (48 + n) else Char.ofNat (55 + n)

/-- The characters JavaScript's `encodeURIComponent` leaves unescaped
besides ASCII letters and digits. -/
def uriMarks : List Char := ['-', '_', '.', '!', '~', '*', Char.ofNat 39, '(', ')']

/-- JavaScript `encodeURIComponent`: unescaped characters pass through,
every other character becomes the percent-encoding of its UTF-8 bytes. -/
def encodeURIComponent (s : String) : String :=
  String.join (s.data.map fun c =>
    if c.isAlphanum || uriMarks.contains c then String.singleton c
    else String.join ((utf8Bytes c.toNat).map fun b =>
      "%" ++ String.singleton (hexDigit (b / 16)) ++ String.singleton (hexDigit (b % 16))))

/-- The `sms:` URI `sendSOS` hands to the dispatch surface. -/
def smsUrl (recipients body : String) : String :=
  "sms:" ++ encodeURIComponent recipients ++ "?&body=" ++ encodeURIComponent body

/-- The pieces of App state the send and add paths read or write. -/
structure AppState where
  userName : String
  contacts : List Contact
  lastMessage : String
  lastLink : String
  status : String
deriving DecidableEq, Repr

/-- An invocation of an injected capability during `sendSOS`. -/
inductive CapCall where
  | getLocation
  | dispatch (uri : String)
deriving DecidableEq, Repr

/-- `sendSOS` from App.jsx as a state transformer.  `loc` is how the
awaited location probe settles for this run and `time` is
`new Date().toLocaleString()`.  The second component records the
capability invocations of the run: the location request and the
navigation to the `sms:` URI. -/
def sendSOS (loc : LocationFix) (time : String) (st : AppState) :
    AppState × List CapCall :=
  if st.contacts.isEmpty then
    ({ st with status := "Add at least one contact first." }, [])
  else
    let link := composedMapLink loc
    let message := composeMessage st.userName link time
    let uri := smsUrl (recipientsCsv st.contacts) message
    ({ st with
        lastLink := link
        lastMessage := message
        status := "Opening SMS app (tap Send)." },
      [.getLocation, .dispatch uri])

/-- The add-contact UI action as a state transformer: on a validation
failure only the status string changes; on success the deduplicated
list is stored and the `useEffect` on `contacts` persists it.  The
second component records the persistence writes of the contact list. -/
def addContactStep (fresh name phoneInput : String) (st : AppState) :
    AppState × List (List Contact) :=
  match addContact fresh name phoneInput st.contacts with
  | .error e => ({ st with status := validationStatus e }, [])
  | .ok next => ({ st with contacts := next, status := "Contact saved." }, [next])

/-- How the injected geolocation sensor behaves on the one
`getCurrentPosition` request: it invokes the success callback, invokes
the error callback, or never invokes either. -/
inductive SensorBehavior where
  | success (lat lon : Rat)
  | error
  | silent
deriving DecidableEq, Repr

/-- How the promise returned by `getLocationOnce` ends up: resolved with
a position, rejected, or never settled. -/
inductive ProbeOutcome where
  | resolved (lat lon : Rat)
  | rejected
  | pending
deriving DecidableEq, Repr

/-- Whether a probe outcome is settled (resolved or rejected). -/
def ProbeOutcome.isSettled : ProbeOutcome → Bool
  | .pending => false
  | _ => true

/-- The options object `getLocationOnce` passes to
`getCurrentPosition`. -/
structure GeoOptions where
  enableHighAccuracy : Bool
  timeout : Nat
  maximumAge : Nat
deriving DecidableEq, Repr

/-- `{ enableHighAccuracy: true, timeout: 10000, maximumAge: 0 }`. -/
def geoOptions : GeoOptions :=
  { enableHighAccuracy := true, timeout := 10000, maximumAge := 0 }

/-- `getLocationOnce` from App.jsx: reject when geolocation is missing
from `navigator`; otherwise the promise settles exactly as the sensor's
callbacks dictate — resolve on the success callback, reject on the
error callback, and stay pending forever when the sensor never calls
back.  The requested `geoOptions` timeout is forwarded to the sensor;
no timer exists outside it. -/
def getLocationOnce (geoSupported : Bool) (sensor : SensorBehavior) : ProbeOutcome :=
  if geoSupported then
    match sensor with
    | .success lat lon => .resolved lat lon
    | .error => .rejected
    | .silent => .pending
  else .rejected

example : toFixed6 (37 : Rat) = "37.000000" := by decide
example : toFixed6 (-122 : Rat) = "-122.000000" := by decide
example : toFixed6 ⟨-1234567, 1000000, by norm_num, by norm_num⟩ = "-1.234567" := by decide
example : encodeURIComponent "a b," = "a%20b%2C" := by decide
example : smsUrl "5551234567" "hi" = "sms:5551234567?&body=hi" := by decide

/-! ## Properties of the dedup loop -/

theorem dedupByPhone_sublist (seen : List String) (l : List Contact) :
    (dedupByPhone seen l).Sublist l := by
  induction l generalizing seen with
  | nil => simp [dedupByPhone]
  | cons c rest ih =>
    simp only [dedupByPhone]
    split
    · exact (ih seen).trans (List.sublist_cons_self c rest)
    · exact (ih _).cons₂ c

theorem mem_dedupByPhone_phones (seen : List String) (l : List Contact) (a : String) :
    a ∈ (dedupByPhone seen l).map Contact.phone ↔
      a ∈ l.map Contact.phone ∧ a ∉ seen := by
  induction l generalizing seen with
  | nil => simp [dedupByPhone]
  | cons c rest ih =>
    simp only [dedupByPhone]
    split
    · next h =>
      rw [ih]
      have hc : c.phone ∈ seen := List.elem_iff.mp h
      simp only [List.map_cons, List.mem_cons]
      constructor
      · rintro ⟨hm, hs⟩
        exact ⟨Or.inr hm, hs⟩
      · rintro ⟨hm, hs⟩
        refine ⟨hm.resolve_left fun e => hs (e ▸ hc), hs⟩
    · next h =>
      have hc : c.phone ∉ seen := fun hm => h (List.elem_iff.mpr hm)
      simp only [List.map_cons, List.mem_cons, ih, List.mem_cons, not_or]
      constructor
      · rintro (rfl | ⟨hm, hne, hs⟩)
        · exact ⟨Or.inl rfl, hc⟩
        · exact ⟨Or.inr hm, hs⟩
      · rintro ⟨rfl | hm, hs⟩
        · exact Or.inl rfl
        · rcases eq_or_ne a c.phone with rfl | hne
          · exact Or.inl rfl
          · exact Or.inr ⟨hm, hne, hs⟩

theorem nodup_dedupByPhone_phones (seen : List String) (l : List Contact) :
    ((dedupByPhone seen l).map Contact.phone).Nodup := by
  induction l generalizing seen with
  | nil => simp [dedupByPhone]
  | cons c rest ih =>
    simp only [dedupByPhone]
    split
    · exact ih seen
    · simp only [List.map_cons, List.nodup_cons]
      refine ⟨fun hm => ?_, ih _⟩
      exact ((mem_dedupByPhone_phones _ _ _).mp hm).2 (List.mem_cons_self _ _)

theorem find?_of_mem_dedupByPhone (seen : List String) (l : List Contact) (c : Contact)
    (hc : c ∈ dedupByPhone seen l) :
    c.phone ∉ seen ∧ l.find? (fun d => d.phone == c.phone) = some c := by
  induction l generalizing seen with
  | nil => simp [dedupByPhone] at hc
  | cons d rest ih =>
    simp only [dedupByPhone] at hc
    split at hc
    · next h =>
      obtain ⟨h1, h2⟩ := ih seen hc
      have hne : (d.phone == c.phone) = false := by
        refine beq_eq_false_iff_ne.mpr fun e => h1 (e ▸ List.elem_iff.mp h)
      exact ⟨h1, by rw [List.find?_cons_of_neg _ (by simp [hne]), h2]⟩
    · next h =>
      have hd : d.phone ∉ seen := fun hm => h (List.elem_iff.mpr hm)
      rcases List.mem_cons.mp hc with rfl | hc'
      · exact ⟨hd, List.find?_cons_of_pos _ (by simp)⟩
      · obtain ⟨h1, h2⟩ := ih _ hc'
        have hne : c.phone ≠ d.phone := fun e => h1 (e ▸ List.mem_cons_self _ _)
        refine ⟨fun hm => h1 (List.mem_cons_of_mem _ hm), ?_⟩
        rw [List.find?_cons_of_neg _ (by simp [Ne.symm hne]), h2]

theorem dedupByPhone_eq_self (seen : List String) (l : List Contact)
    (h1 : (l.map Contact.phone).Nodup)
    (h2 : ∀ a ∈ l.map Contact.phone, a ∉ seen) :
    dedupByPhone seen l = l := by
  induction l generalizing seen with
  | nil => simp [dedupByPhone]
  | cons c rest ih =>
    have hc : c.phone ∉ seen := h2 c.phone (by simp)
    simp only [dedupByPhone]
    split
    · next h => exact absurd (List.elem_iff.mp h) hc
    · next h =>
      simp only [List.map_cons, List.nodup_cons] at h1
      refine congrArg (c :: ·) (ih _ h1.2 fun a ha => ?_)
      simp only [List.mem_cons, not_or]
      exact ⟨fun e => h1.1 (e ▸ ha), h2 a (List.mem_cons_of_mem _ ha)⟩

theorem dedupByPhone_append_one (seen : List String) (l : List Contact) (c : Contact)
    (h1 : (l.map Contact.phone).Nodup)
    (h2 : ∀ a ∈ l.map Contact.phone, a ∉ seen) :
    dedupByPhone seen (l ++ [c]) =
      if c.phone ∈ seen ∨ c.phone ∈ l.map Contact.phone then l else l ++ [c] := by
  induction l generalizing seen with
  | nil =>
    simp only [List.nil_append, dedupByPhone, List.map_nil, List.not_mem_nil, or_false]
    split
    · next h => rw [if_pos (List.elem_iff.mp h)]
    · next h => rw [if_neg (fun hm => h (List.elem_iff.mpr hm))]
  | cons d rest ih =>
    have hd : d.phone ∉ seen := h2 d.phone (by simp)
    simp only [List.cons_append, dedupByPhone, List.append_eq]
    split
    · next h => exact absurd (List.elem_iff.mp h) hd
    next h =>
    simp only [List.map_cons, List.nodup_cons] at h1
    rw [ih (d.phone :: seen) h1.2 ?disj]
    case disj =>
      intro a ha
      simp only [List.mem_cons, not_or]
      exact ⟨fun e => h1.1 (e ▸ ha), h2 a (List.mem_cons_of_mem _ ha)⟩
    by_cases hmem : c.phone ∈ seen ∨ c.phone ∈ (d :: rest).map Contact.phone
    · rw [if_pos hmem]
      have : c.phone ∈ d.phone :: seen ∨ c.phone ∈ rest.map Contact.phone := by
        simp only [List.map_cons, List.mem_cons] at hmem
        rcases hmem with h | h | h
        · exact Or.inl (List.mem_cons_of_mem _ h)
        · exact Or.inl (h ▸ List.mem_cons_self _ _)
        · exact Or.inr h
      rw [if_pos this]
    · rw [if_neg hmem]
      have : ¬(c.phone ∈ d.phone :: seen ∨ c.phone ∈ rest.map Contact.phone) := by
        simp only [List.map_cons, List.mem_cons, not_or] at hmem ⊢
        push_neg at hmem
        exact ⟨⟨hmem.2.1, hmem.1⟩, hmem.2.2⟩
      rw [if_neg this]

/-- The contact record `addContact` constructs before appending. -/
def newContact (fresh name phoneInput : String) : Contact :=
  { id := fresh, name := jsTrim name, phone := jsTrim phoneInput }

/-- Inversion of a successful `addContact`: the stored list is the
deduplicated appended sequence, and the input passed all three
validation checks. -/
theorem addContact_ok (fresh name phoneInput : String) (s s' : List Contact)
    (h : addContact fresh name phoneInput s = .ok s') :
    s' = dedupByPhone [] (s ++ [newContact fresh name phoneInput]) ∧
    jsTrim phoneInput ≠ "" ∧
    isBlockedNumber (jsTrim phoneInput) = false ∧
    7 ≤ (normalizePhone (jsTrim phoneInput)).length := by
  simp only [addContact] at h
  split_ifs at h with h1 h2 h3
  simp only [Except.ok.injEq] at h
  exact ⟨h.symm, h1, Bool.not_eq_true _ ▸ h2, Nat.not_lt.mp h3⟩

/-- Helper: the trimmed phone of the newest entry is a phone of the
appended sequence. -/
theorem mem_phones_append (s : List Contact) (c : Contact) :
    c.phone ∈ (s ++ [c]).map Contact.phone := by
  simp

/-! ## Claim theorems -/

/-- C1 (counterexample): the store reached by adding `"555-1234567"`
and then `"5551234567"` holds two distinct contacts whose phones
normalize to the same digit string, so the canonical digit form is not
unique across the contacts of a reachable store. -/
theorem normalized_digits_not_unique :
    Reachable [{ id := "u1", name := "A", phone := "555-1234567" },
               { id := "u2", name := "B", phone := "5551234567" }] ∧
    ({ id := "u1", name := "A", phone := "555-1234567" } : Contact) ≠
      { id := "u2", name := "B", phone := "5551234567" } ∧
    normalizePhone "555-1234567" = normalizePhone "5551234567" := by
  refine ⟨?_, by decide, by decide⟩
  refine Reachable.add "u2" "B" "5551234567"
    [{ id := "u1", name := "A", phone := "555-1234567" }] _ ?_ (by rfl)
  exact Reachable.add "u1" "A" "555-1234567" [] _ Reachable.empty (by rfl)

/-- C1 (amended): across every reachable store it is the raw stored
`phone` string, not its normalized digit form, that is unique: the
phones of a reachable contact list are pairwise distinct. -/
theorem reachable_raw_phone_unique (s : List Contact) (h : Reachable s) :
    (s.map Contact.phone).Nodup := by
  induction h with
  | empty => simp
  | add fresh name phoneInput t t' _ hok _ =>
    rcases addContact_ok _ _ _ _ _ hok with ⟨rfl, -, -, -⟩
    exact nodup_dedupByPhone_phones _ _
  | remove id t _ ih =>
    exact ih.sublist ((List.filter_sublist t).map Contact.phone)

/-- Witness for C1 (amended) at a concrete reachable store. -/
theorem reachable_raw_phone_unique_witness :
    (([{ id := "u1", name := "A", phone := "555-1234567" }] : List Contact).map
      Contact.phone).Nodup :=
  reachable_raw_phone_unique _
    (Reachable.add "u1" "A" "555-1234567" [] _ Reachable.empty (by rfl))

/-- C9: a successful add deduplicates the entire appended sequence,
whatever the starting list held: the result is an order-preserving
subsequence of the appended sequence, its raw phones are pairwise
distinct, every phone of the appended sequence survives, and each
surviving contact is the first occurrence of its phone in the appended
sequence. -/
theorem addContact_dedups_entire_store
    (fresh name phoneInput : String) (s s' : List Contact)
    (h : addContact fresh name phoneInput s = .ok s') :
    s'.Sublist (s ++ [newContact fresh name phoneInput]) ∧
    (s'.map Contact.phone).Nodup ∧
    (∀ a, a ∈ (s ++ [newContact fresh name phoneInput]).map Contact.phone ↔
      a ∈ s'.map Contact.phone) ∧
    ∀ c ∈ s',
      (s ++ [newContact fresh name phoneInput]).find?
        (fun d => d.phone == c.phone) = some c := by
  rcases addContact_ok _ _ _ _ _ h with ⟨rfl, -, -, -⟩
  refine ⟨dedupByPhone_sublist _ _, nodup_dedupByPhone_phones _ _, fun a => ?_,
    fun c hc => (find?_of_mem_dedupByPhone _ _ _ hc).2⟩
  rw [mem_dedupByPhone_phones]
  simp

/-- Witness for C9: adding to a start list that already contains a
duplicated phone leaves one entry per phone, first occurrences kept. -/
theorem addContact_dedups_entire_store_witness :
    ([{ id := "x", name := "X", phone := "1234567" },
      { id := "y", name := "Y", phone := "7654321" },
      { id := "u1", name := "A", phone := "5551234" }] : List Contact).Sublist
      ([{ id := "x", name := "X", phone := "1234567" },
        { id := "y", name := "Y", phone := "7654321" },
        { id := "z", name := "Z", phone := "1234567" },
        { id := "u1", name := "A", phone := "5551234" }]) ∧
    (([{ id := "x", name := "X", phone := "1234567" },
       { id := "y", name := "Y", phone := "7654321" },
       { id := "u1", name := "A", phone := "5551234" }] : List Contact).map
      Contact.phone).Nodup ∧
    (∀ a, a ∈ ([{ id := "x", name := "X", phone := "1234567" },
        { id := "y", name := "Y", phone := "7654321" },
        { id := "z", name := "Z", phone := "1234567" },
        { id := "u1", name := "A", phone := "5551234" }] : List Contact).map
        Contact.phone ↔
      a ∈ ([{ id := "x", name := "X", phone := "1234567" },
        { id := "y", name := "Y", phone := "7654321" },
        { id := "u1", name := "A", phone := "5551234" }] : List Contact).map
        Contact.phone) ∧
    ∀ c ∈ ([{ id := "x", name := "X", phone := "1234567" },
        { id := "y", name := "Y", phone := "7654321" },
        { id := "u1", name := "A", phone := "5551234" }] : List Contact),
      ([{ id := "x", name := "X", phone := "1234567" },
        { id := "y", name := "Y", phone := "7654321" },
        { id := "z", name := "Z", phone := "1234567" },
        { id := "u1", name := "A", phone := "5551234" }] : List Contact).find?
        (fun d => d.phone == c.phone) = some c :=
  addContact_dedups_entire_store "u1" "A" "5551234"
    [{ id := "x", name := "X", phone := "1234567" },
     { id := "y", name := "Y", phone := "7654321" },
     { id := "z", name := "Z", phone := "1234567" }] _ (by rfl)

@[simp] theorem newContact_phone (f n p : String) :
    (newContact f n p).phone = jsTrim p := rfl

/-- C2: `addContact` deduplicates by the raw stored phone string.  Two
successive adds of the same trimmed phone leave exactly one entry with
that phone — the first occurrence of it in the appended sequence —
while two adds whose phones have equal digits but different raw strings
leave both phones in the store. -/
theorem addContact_dedup_by_raw_phone
    (s s1 s2 : List Contact) (f1 f2 n1 n2 p1 p2 : String)
    (h1 : addContact f1 n1 p1 s = .ok s1)
    (h2 : addContact f2 n2 p2 s1 = .ok s2) :
    (jsTrim p1 = jsTrim p2 →
      (s2.map Contact.phone).count (jsTrim p1) = 1 ∧
      ∀ c ∈ s2, c.phone = jsTrim p1 →
        (s ++ [newContact f1 n1 p1]).find? (fun d => d.phone == jsTrim p1) = some c) ∧
    (jsTrim p1 ≠ jsTrim p2 → normalizePhone p1 = normalizePhone p2 →
      jsTrim p1 ∈ s2.map Contact.phone ∧ jsTrim p2 ∈ s2.map Contact.phone) := by
  rcases addContact_ok _ _ _ _ _ h1 with ⟨rfl, -, -, -⟩
  rcases addContact_ok _ _ _ _ _ h2 with ⟨rfl, -, -, -⟩
  have hmem1 : jsTrim p1 ∈
      (dedupByPhone [] (s ++ [newContact f1 n1 p1])).map Contact.phone := by
    rw [mem_dedupByPhone_phones, List.map_append]
    exact ⟨List.mem_append.mpr (Or.inr (by simp)), List.not_mem_nil _⟩
  constructor
  · intro heq
    have hmem2 : jsTrim p1 ∈
        (dedupByPhone [] (dedupByPhone [] (s ++ [newContact f1 n1 p1]) ++
          [newContact f2 n2 p2])).map Contact.phone := by
      rw [mem_dedupByPhone_phones, List.map_append]
      exact ⟨List.mem_append.mpr (Or.inl hmem1), List.not_mem_nil _⟩
    refine ⟨List.count_eq_one_of_mem (nodup_dedupByPhone_phones _ _) hmem2, ?_⟩
    intro c hc hcphone
    have h3 := (find?_of_mem_dedupByPhone _ _ _ hc).2
    have hsome : ((dedupByPhone [] (s ++ [newContact f1 n1 p1])).find?
        (fun d => d.phone == c.phone)).isSome := by
      rw [List.find?_isSome]
      rcases List.mem_map.mp hmem1 with ⟨x, hx, hxp⟩
      exact ⟨x, hx, by simp [hxp, hcphone]⟩
    rcases Option.isSome_iff_exists.mp hsome with ⟨x, hx⟩
    rw [List.find?_append, hx] at h3
    simp only [Option.or, Option.some.injEq] at h3
    subst h3
    have hcs1 : x ∈ dedupByPhone [] (s ++ [newContact f1 n1 p1]) :=
      List.mem_of_find?_eq_some hx
    have h4 := (find?_of_mem_dedupByPhone _ _ _ hcs1).2
    rwa [hcphone] at h4
  · intro hne hnorm
    constructor
    · rw [mem_dedupByPhone_phones, List.map_append]
      exact ⟨List.mem_append.mpr (Or.inl hmem1), List.not_mem_nil _⟩
    · rw [mem_dedupByPhone_phones, List.map_append]
      exact ⟨List.mem_append.mpr (Or.inr (by simp)), List.not_mem_nil _⟩

/-- Witness for C2: adding `"555-1234567"` twice keeps one entry;
adding `"555-1234567"` then `"5551234567"` keeps both. -/
theorem addContact_dedup_by_raw_phone_witness :
    (([{ id := "a", name := "A", phone := "555-1234567" }] : List Contact).map
      Contact.phone).count "555-1234567" = 1 ∧
    "555-1234567" ∈ ([{ id := "a", name := "A", phone := "555-1234567" },
      { id := "d", name := "D", phone := "5551234567" }] : List Contact).map
        Contact.phone ∧
    "5551234567" ∈ ([{ id := "a", name := "A", phone := "555-1234567" },
      { id := "d", name := "D", phone := "5551234567" }] : List Contact).map
        Contact.phone := by
  have hA := addContact_dedup_by_raw_phone []
    [{ id := "a", name := "A", phone := "555-1234567" }]
    [{ id := "a", name := "A", phone := "555-1234567" }]
    "a" "b" "A" "B" "555-1234567" "555-1234567" (by rfl) (by rfl)
  have hB := addContact_dedup_by_raw_phone []
    [{ id := "a", name := "A", phone := "555-1234567" }]
    [{ id := "a", name := "A", phone := "555-1234567" },
     { id := "d", name := "D", phone := "5551234567" }]
    "a" "d" "A" "D" "555-1234567" "5551234567" (by rfl) (by rfl)
  exact ⟨(hA.1 rfl).1, (hB.2 (by decide) (by decide)).1, (hB.2 (by decide) (by decide)).2⟩

/-- C3: the three validation checks run in the order empty-phone,
blocked-number, too-short, each reported through its status string; a
failed add leaves the contact list untouched and performs no
persistence write. -/
theorem addContact_validation_order (fresh name phoneInput : String) (st : AppState) :
    (jsTrim phoneInput = "" →
      addContact fresh name phoneInput st.contacts = .error .EmptyPhone) ∧
    (jsTrim phoneInput ≠ "" → isBlockedNumber (jsTrim phoneInput) = true →
      addContact fresh name phoneInput st.contacts = .error .BlockedNumber) ∧
    (jsTrim phoneInput ≠ "" → isBlockedNumber (jsTrim phoneInput) = false →
      (normalizePhone (jsTrim phoneInput)).length < 7 →
      addContact fresh name phoneInput st.contacts = .error .TooShort) ∧
    ∀ e, addContact fresh name phoneInput st.contacts = .error e →
      addContactStep fresh name phoneInput st =
        ({ st with status := validationStatus e }, []) := by
  refine ⟨fun h => by simp [addContact, h],
    fun h1 h2 => by simp [addContact, h1, h2],
    fun h1 h2 h3 => by simp [addContact, h1, h2, h3],
    fun e he => ?_⟩
  unfold addContactStep
  rw [he]

/-- Witness for C3 at concrete inputs for each of the three failures. -/
theorem addContact_validation_order_witness :
    addContact "u1" "A" "   " ([] : List Contact) = .error .EmptyPhone ∧
    addContact "u1" "A" "(911)" ([] : List Contact) = .error .BlockedNumber ∧
    addContact "u1" "A" "123456" ([] : List Contact) = .error .TooShort ∧
    addContactStep "u1" "A" "123456"
      { userName := "", contacts := [], lastMessage := "", lastLink := "", status := "" } =
      ({ userName := "", contacts := [], lastMessage := "", lastLink := "",
         status := "That number looks too short." }, []) := by
  have hE := addContact_validation_order "u1" "A" "   "
    { userName := "", contacts := [], lastMessage := "", lastLink := "", status := "" }
  have hB := addContact_validation_order "u1" "A" "(911)"
    { userName := "", contacts := [], lastMessage := "", lastLink := "", status := "" }
  have hS := addContact_validation_order "u1" "A" "123456"
    { userName := "", contacts := [], lastMessage := "", lastLink := "", status := "" }
  exact ⟨hE.1 (by decide), hB.2.1 (by decide) (by decide),
    hS.2.2.1 (by decide) (by decide) (by decide),
    hS.2.2.2 .TooShort (by rfl)⟩

/-- Join lines with a single newline between consecutive lines (no
trailing newline). -/
def joinLines : List String → String
  | [] => ""
  | [line] => line
  | line :: rest => line ++ "\n" ++ joinLines rest

/-- The message lines in the order the spec lists them (refinement-side
definition, following the spec's wording), with the final time line as
the code actually writes it — `"Time: {time}"` without a trailing
period. -/
def specMessageLines (userName link time : String) : List String :=
  [if userName ≠ "" then "My name is " ++ userName ++ "." else "This is an SOS message.",
   "I’m being questioned or detained and may not be able to respond right now.",
   "Please check on me to make sure I’m okay."] ++
  (if link ≠ "" then ["My last known location is below:", link]
   else ["My location is unavailable right now."]) ++
  ["Time: " ++ time]

set_option maxRecDepth 4000 in
/-- C4 (counterexample): at `userName = "Alex"`, no map link and time
`"t"`, the composed text ends in the line `"Time: t"` and differs from
the text the claim mandates, whose final line `"Time: t."` carries a
trailing period. -/
theorem composeMessage_time_line_counterexample :
    composeMessage "Alex" "" "t" =
      "My name is Alex.\nI’m being questioned or detained and may not be able to respond right now.\nPlease check on me to make sure I’m okay.\nMy location is unavailable right now.\nTime: t" ∧
    composeMessage "Alex" "" "t" ≠
      "My name is Alex.\nI’m being questioned or detained and may not be able to respond right now.\nPlease check on me to make sure I’m okay.\nMy location is unavailable right now.\nTime: t." :=
  ⟨rfl, by decide⟩

/-- C4 (amended): the composed text is exactly the newline-separated
lines in the claimed order — name line (or the SOS fallback), the
detained line, the check-on-me line, the location block (link header
and link, or the unavailable line), and a final time line, the last
without a trailing period. -/
theorem composeMessage_line_structure (userName link time : String) :
    composeMessage userName link time = joinLines (specMessageLines userName link time) := by
  unfold composeMessage specMessageLines
  split_ifs with hu hl hl
  all_goals
    simp only [List.cons_append, List.nil_append, joinLines, String.append_assoc]
  all_goals rfl

/-- C5: the composed map link is empty exactly on a failed fix, and on
a position it is the fixed-shape Google Maps URL over the 6-fractional-
digit formatted coordinates; at `Known{37, -122}` it is the literal
URL. -/
theorem composedMapLink_shape :
    composedMapLink .Unknown = "" ∧
    (∀ lat lon : Rat, composedMapLink (.Known lat lon) =
      "https://maps.google.com/?q=" ++ toFixed6 lat ++ "," ++ toFixed6 lon) ∧
    composedMapLink (.Known 37 (-122)) =
      "https://maps.google.com/?q=37.000000,-122.000000" :=
  ⟨rfl, fun _ _ => rfl, by decide⟩

/-- C6: with an empty contact list, `sendSOS` only sets the
no-contacts status: it invokes no capability (neither the location
probe nor the dispatch surface) and leaves the stored report (last
message and last link) and the contacts unchanged. -/
theorem sendSOS_no_contacts (loc : LocationFix) (time : String) (st : AppState)
    (h : st.contacts = []) :
    (sendSOS loc time st).2 = [] ∧
    (sendSOS loc time st).1.status = "Add at least one contact first." ∧
    (sendSOS loc time st).1.lastMessage = st.lastMessage ∧
    (sendSOS loc time st).1.lastLink = st.lastLink ∧
    (sendSOS loc time st).1.contacts = st.contacts := by
  simp [sendSOS, h]

/-- Witness for C6 at a concrete empty-store state. -/
theorem sendSOS_no_contacts_witness :
    (sendSOS .Unknown "t" (⟨"U", [], "m", "l", ""⟩ : AppState)).2 = [] ∧
    (sendSOS .Unknown "t" (⟨"U", [], "m", "l", ""⟩ : AppState)).1.status =
      "Add at least one contact first." ∧
    (sendSOS .Unknown "t" (⟨"U", [], "m", "l", ""⟩ : AppState)).1.lastMessage = "m" ∧
    (sendSOS .Unknown "t" (⟨"U", [], "m", "l", ""⟩ : AppState)).1.lastLink = "l" ∧
    (sendSOS .Unknown "t" (⟨"U", [], "m", "l", ""⟩ : AppState)).1.contacts = [] :=
  sendSOS_no_contacts .Unknown "t" _ rfl

/-- C7: `isBlockedNumber` holds exactly when the normalized digits are
one of the four reserved numbers; formatted variants of each reserved
number are blocked and `"1234567"` is not. -/
theorem isBlockedNumber_iff :
    (∀ t : String, isBlockedNumber t = true ↔
      (normalizePhone t = "911" ∨ normalizePhone t = "112" ∨
       normalizePhone t = "999" ∨ normalizePhone t = "988")) ∧
    isBlockedNumber "9-1-1" = true ∧ isBlockedNumber "(1)1 2" = true ∧
    isBlockedNumber "9 9 9" = true ∧ isBlockedNumber "9.8.8" = true ∧
    isBlockedNumber "1234567" = false := by
  refine ⟨fun t => ?_, by decide, by decide, by decide, by decide, by decide⟩
  constructor
  · intro h
    simpa [blockedNumbers] using List.elem_iff.mp h
  · intro h
    exact List.elem_iff.mpr (by simpa [blockedNumbers] using h)

/-- C8 (counterexample): a sensor capability that never invokes either
callback leaves the probe promise pending forever: `getLocationOnce`
never settles, so it does not resolve with `Unknown` when the timeout
bound elapses. -/
theorem getLocationOnce_pending_counterexample :
    (getLocationOnce true SensorBehavior.silent).isSettled = false := rfl

/-- C8 (amended): `getLocationOnce` forwards the 10000 ms timeout to
the sensor capability in its options but wraps no independent timer:
it rejects at once when geolocation is unsupported, settles exactly as
the sensor's callbacks dictate, and stays pending forever when the
sensor never invokes either callback, so bounded resolution relies on
the capability honoring the requested timeout. -/
theorem getLocationOnce_no_independent_timer :
    geoOptions.timeout = 10000 ∧
    (∀ sensor, getLocationOnce false sensor = .rejected) ∧
    (∀ lat lon : Rat, getLocationOnce true (.success lat lon) = .resolved lat lon) ∧
    getLocationOnce true .error = .rejected ∧
    getLocationOnce true .silent = .pending :=
  ⟨rfl, fun _ => rfl, fun _ _ => rfl, rfl, rfl⟩

/-- C10: `recipientsCsv` is not injective on reachable stores: the
store holding the single contact `"1234567,7654321"` and the store
holding `"1234567"` then `"7654321"` are distinct reachable stores with
the same comma-joined recipient string. -/
theorem recipientsCsv_not_injective :
    ∃ s1 s2 : List Contact, Reachable s1 ∧ Reachable s2 ∧ s1 ≠ s2 ∧
      recipientsCsv s1 = recipientsCsv s2 := by
  refine ⟨[{ id := "u1", name := "A", phone := "1234567,7654321" }],
    [{ id := "u2", name := "B", phone := "1234567" },
     { id := "u3", name := "C", phone := "7654321" }], ?_, ?_, by decide, by decide⟩
  · exact Reachable.add "u1" "A" "1234567,7654321" [] _ Reachable.empty (by rfl)
  · exact Reachable.add "u3" "C" "7654321"
      [{ id := "u2", name := "B", phone := "1234567" }] _
      (Reachable.add "u2" "B" "1234567" [] _ Reachable.empty (by rfl)) (by rfl)

end SOS
